import Mathlib

/-
  Verification development for the crest_analysis repository.

  Source files modelled:
  - src/rmsd_conformer_xyz.py  (RMSD pipeline, band classifier, xyz reader)
  - src/xyz2com_crest_pc.py    (geometry engine: bond length, bond angle,
    signed dihedral; conversion and measurement driver)

  Modelling conventions, used throughout:
  - Python and numpy floating-point numbers are modelled as real numbers.
    Where IEEE NaN behaviour matters (the band classifier), a separate model
    over Option real is given, with none standing for NaN and every
    comparison against none evaluating to false, as IEEE comparisons do.
  - A numpy row vector of three coordinates is the structure Vec3.
  - Python exceptions are modelled by Except / Option result types: a
    program that raises before producing output is a function that returns
    an error value, and output exists only in the ok branch.
  - Python int(s) is modelled by the executable parser pyInt below:
    surrounding whitespace is stripped, an optional sign is read, and the
    remaining characters must be a nonempty run of decimal digits (exotic
    spellings such as embedded underscores that CPython accepts are not
    modelled).
  - Python round(v, 4) is modelled by roundTo 4, rounding half away from
    the floor rather than banker style; no theorem below depends on the
    tie-breaking rule.
-/

/-- Three real coordinates, the model of one atomic position (one row of a
numpy coordinate array, or the three numeric columns of a coordinate line). -/
structure Vec3 where
  x : ℝ
  y : ℝ
  z : ℝ

instance : Zero Vec3 := ⟨⟨0, 0, 0⟩⟩

instance : Inhabited Vec3 := ⟨⟨0, 0, 0⟩⟩

instance : Sub Vec3 := ⟨fun a b => ⟨a.x - b.x, a.y - b.y, a.z - b.z⟩⟩





/-- Dot product of two 3-vectors, the model of np.dot on two rows. -/
def dot3 (u v : Vec3) : ℝ := u.x * v.x + u.y * v.y + u.z * v.z

/-- Cross product of two 3-vectors, the model of np.cross on two rows. -/
def cross (u v : Vec3) : Vec3 :=
  ⟨u.y * v.z - u.z * v.y, u.z * v.x - u.x * v.z, u.x * v.y - u.y * v.x⟩

/-- Sum of squared components. -/
def sqnorm (v : Vec3) : ℝ := v.x ^ 2 + v.y ^ 2 + v.z ^ 2

/-- Euclidean length of a 3-vector, the model of
math.sqrt(sum(v ** 2 for v in w)). -/
noncomputable def norm3 (v : Vec3) : ℝ := Real.sqrt (sqnorm v)

/-- Model of Python round(v, k): multiply by 10 ^ k, round to the nearest
integer, divide back. -/
noncomputable def roundTo (k : ℕ) (v : ℝ) : ℝ :=
  ((round (v * 10 ^ k) : ℤ) : ℝ) / 10 ^ k





/-- Surrounding-whitespace strip on a character list, the model of
str.strip in Python. -/
def stripChars (l : List Char) : List Char :=
  ((l.dropWhile Char.isWhitespace).reverse.dropWhile Char.isWhitespace).reverse

/-- A nonempty all-digit character run read as a natural number. -/
def digitsToNat (l : List Char) : Option ℕ :=
  if l ≠ [] ∧ l.all Char.isDigit then
    some (l.foldl (fun acc c => 10 * acc + (c.toNat - 48)) 0)
  else none

/-- Model of Python int(s): strip surrounding whitespace, read an optional
sign, then require a nonempty run of decimal digits; none models the
ValueError raised on anything else. -/
def pyInt (s : String) : Option ℤ :=
  match stripChars s.data with
  | '-' :: ds => (digitsToNat ds).map (fun n => -(n : ℤ))
  | '+' :: ds => (digitsToNat ds).map (fun n => (n : ℤ))
  | ds => (digitsToNat ds).map (fun n => (n : ℤ))

/-
  Model of src/rmsd_conformer_xyz.py.
-/

/-- Model of adjust_relative_to_first_atom (lines 36-42): subtract the
position of atom 0 from every position. Python indexes coords[0], which
raises on an empty array; List.headI totalises that access with the zero
vector, and every theorem about this function assumes a nonempty frame. -/
def adjust_relative_to_first_atom (coords : List Vec3) : List Vec3 :=
  coords.map (fun c => c - coords.headI)

/-- Model of calculate_rmsd (lines 44-52). The body is
sqrt(np.sum((coords1 - coords2) ** 2) / len(coords1)). The numpy
subtraction of two arrays of shapes (n, 3) and (m, 3) is elementwise when
n = m, broadcasts the single row when n = 1 or m = 1, and raises a
ValueError otherwise; the error case is the none result. -/
noncomputable def calculate_rmsd (coords1 coords2 : List Vec3) : Option ℝ :=
  if coords1.length = coords2.length then
    some (Real.sqrt
      ((List.zipWith (fun a b => sqnorm (a - b)) coords1 coords2).sum
        / (coords1.length : ℝ)))
  else if coords1.length = 1 then
    some (Real.sqrt
      ((coords2.map (fun b => sqnorm (coords1.headI - b))).sum
        / (coords1.length : ℝ)))
  else if coords2.length = 1 then
    some (Real.sqrt
      ((coords1.map (fun a => sqnorm (a - coords2.headI))).sum
        / (coords1.length : ℝ)))
  else none

/-- Model of main, steps 2 and 3 (lines 93-101): first recenter every
conformer, then compute the RMSD of the recentered reference (index 0,
Python adjusted_conformers[0]) against every recentered conformer, in
ensemble order. -/
noncomputable def rmsd_values (conformers : List (List Vec3)) : List (Option ℝ) :=
  let adjusted := conformers.map adjust_relative_to_first_atom
  adjusted.map (fun c => calculate_rmsd adjusted.headI c)

/-- The four classification bands of write_rmsd_to_file (lines 62-67);
the constructors model the dictionary keys smaller_than_0.5, 0.5_to_1.0,
1.0_to_2.0 and above_2.0 in that order. -/
inductive Band where
  | smallerThanHalf
  | halfToOne
  | oneToTwo
  | aboveTwo
deriving DecidableEq

/-- Model of the if/elif/else chain of write_rmsd_to_file (lines 70-78)
on an ordinary (non-NaN) float value. -/
noncomputable def classify (rmsd : ℝ) : Band :=
  if rmsd < 0.5 then Band.smallerThanHalf
  else if 0.5 ≤ rmsd ∧ rmsd < 1.0 then Band.halfToOne
  else if 1.0 ≤ rmsd ∧ rmsd < 2.0 then Band.oneToTwo
  else Band.aboveTwo

/-- Less-than against a possibly-NaN float: none models NaN, and every
IEEE comparison involving NaN is false. -/
def nanLt : Option ℝ → ℝ → Prop
  | none, _ => False
  | some a, c => a < c

/-- At-most against a possibly-NaN float on the right. -/
def nanLe : ℝ → Option ℝ → Prop
  | _, none => False
  | c, some a => c ≤ a

noncomputable instance nanLtDec (v : Option ℝ) (c : ℝ) : Decidable (nanLt v c) :=
  match v with
  | none => isFalse (fun h => h)
  | some a => inferInstanceAs (Decidable (a < c))

noncomputable instance nanLeDec (c : ℝ) (v : Option ℝ) : Decidable (nanLe c v) :=
  match v with
  | none => isFalse (fun h => h)
  | some a => inferInstanceAs (Decidable (c ≤ a))

/-- Model of the same chain (lines 70-78) over floats extended with NaN:
the guards are exactly the Python conditions rmsd < 0.5, then
0.5 <= rmsd < 1.0 (a chained pair of comparisons), then
1.0 <= rmsd < 2.0, with NaN making every comparison false. -/
noncomputable def classifyF (v : Option ℝ) : Band :=
  if nanLt v 0.5 then Band.smallerThanHalf
  else if nanLe 0.5 v ∧ nanLt v 1.0 then Band.halfToOne
  else if nanLe 1.0 v ∧ nanLt v 2.0 then Band.oneToTwo
  else Band.aboveTwo

/-- Modelled from the spec: the classification bands of section 3, the
half-open intervals [0, 0.5), [0.5, 1.0), [1.0, 2.0) and [2.0, infinity),
lower bound inclusive, upper bound exclusive, last band unbounded above.
This is the specification-side description that the classifier is compared
against. -/
def specBand (b : Band) (x : ℝ) : Prop :=
  match b with
  | Band.smallerThanHalf => 0 ≤ x ∧ x < 0.5
  | Band.halfToOne => 0.5 ≤ x ∧ x < 1.0
  | Band.oneToTwo => 1.0 ≤ x ∧ x < 2.0
  | Band.aboveTwo => 2.0 ≤ x

/-- Errors that the rmsd script can raise before producing its report. -/
inductive RmsdErr where
  | badCount
  | badCoord
  | truncated
  | emptyEnsemble
  | shapeMismatch
deriving DecidableEq

/-- Model of read_xyz (lines 10-34). The argument pc abstracts the
float(parts[1]) .. float(parts[3]) parse of one coordinate line (none for
any of the IndexError / ValueError failures there); the atom-count line is
parsed by int(lines[i].strip()), modelled by pyInt. The loop skips the
count line and the comment line, then reads the declared number of
coordinate lines; running past the end of the file is the IndexError
case, modelled by the truncated error. -/
def read_xyz (pc : String → Option Vec3) : List String → Except RmsdErr (List (List Vec3))
  | [] => Except.ok []
  | countLine :: rest =>
    match pyInt countLine with
    | none => Except.error RmsdErr.badCount
    | some n =>
      let body := rest.drop 1
      if n.toNat ≤ body.length then
        match (body.take n.toNat).mapM pc with
        | none => Except.error RmsdErr.badCoord
        | some coords =>
          match read_xyz pc (body.drop n.toNat) with
          | Except.error e => Except.error e
          | Except.ok cs => Except.ok (coords :: cs)
      else Except.error RmsdErr.truncated
termination_by l => l.length
decreasing_by
  simp only [List.length_drop, List.length_cons]
  omega

/-- The data of the report written by write_rmsd_to_file: the RMSD value
of each conformer and the band each one is classified into. -/
structure RmsdReport where
  values : List ℝ
  classification : List Band

/-- Model of main (lines 89-105): read the conformers, recenter and score
them, then classify. An empty ensemble raises at adjusted_conformers[0]
(IndexError), and a numpy shape error inside calculate_rmsd propagates;
output exists only in the ok branch, so an error result models a run that
created no output file. -/
noncomputable def rmsd_main (pc : String → Option Vec3) (lines : List String) :
    Except RmsdErr RmsdReport :=
  match read_xyz pc lines with
  | Except.error e => Except.error e
  | Except.ok conformers =>
    match conformers with
    | [] => Except.error RmsdErr.emptyEnsemble
    | _ :: _ =>
      match (rmsd_values conformers).mapM (fun o => o) with
      | none => Except.error RmsdErr.shapeMismatch
      | some vals => Except.ok ⟨vals, vals.map classify⟩

/-
  Model of src/xyz2com_crest_pc.py.
-/

/-- One raw line of the multi-frame coordinate file, as seen by the
conversion script: the raw text (written verbatim into the generated
input files) together with the three numeric columns that
np.array(line.split()[1:], dtype=np.float32) extracts from a coordinate
line. The float32 parse itself is text plumbing outside the claims, so
the parsed view is carried alongside the text; for a header line the vec
field is irrelevant junk, as it is in the source, which only ever parses
coordinate lines. -/
structure FileLine where
  raw : String
  vec : Vec3

/-- The value of the local variable distance in calc_length (lines 36-42)
before the final round: the Euclidean distance between the two parsed
positions, computed as the square root of the sum of squared
componentwise differences. -/
noncomputable def distRaw (a b : Vec3) : ℝ := Real.sqrt (sqnorm (a - b))

/-- Model of calc_length (lines 36-43): parse positions from lines i and
j of the file and return the distance rounded to 4 decimal places.
Python indexing array[i] is totalised with List.getD and the zero
vector. -/
noncomputable def calc_length (array : List Vec3) (i j : ℕ) : ℝ :=
  roundTo 4 (distRaw (array.getD i 0) (array.getD j 0))

/-- The value of the local variable angle in calc_angle (lines 46-56)
before the final round. The source computes AB = atomB - atomA and
BC = atomB - atomC, both pointing from the endpoints toward the vertex
is reversed: both vectors in fact point from the endpoints to the vertex
B, a sign convention that negates both vectors together. -/
noncomputable def angleRaw (a b c : Vec3) : ℝ :=
  Real.arccos (dot3 (b - a) (b - c) / (norm3 (b - a) * norm3 (b - c)))
    * 180 / Real.pi

/-- Model of calc_angle (lines 46-57): the bond angle at vertex j between
atoms i and k, in degrees, rounded to 4 decimal places. -/
noncomputable def calc_angle (array : List Vec3) (i j k : ℕ) : ℝ :=
  roundTo 4 (angleRaw (array.getD i 0) (array.getD j 0) (array.getD k 0))

/-- The value of the local variable dihedral in calc_dihedral (lines
60-79) before the final round: with AB = b - a, BC = c - b, CD = d - c,
normals n1 = AB x BC and n2 = BC x CD, the unsigned angle is
arccos(n1.n2 / (|n1||n2|)) in degrees, negated when (n1 x n2).BC < 0. -/
noncomputable def dihedralRaw (a b c d : Vec3) : ℝ :=
  let ab := b - a
  let bc := c - b
  let cd := d - c
  let n1 := cross ab bc
  let n2 := cross bc cd
  let base := Real.arccos (dot3 n1 n2 / (norm3 n1 * norm3 n2)) * 180 / Real.pi
  if dot3 (cross n1 n2) bc < 0 then -base else base

/-- Model of calc_dihedral (lines 60-80): the signed dihedral over atoms
i, j, k, m, in degrees, rounded to 4 decimal places. -/
noncomputable def calc_dihedral (array : List Vec3) (i j k m : ℕ) : ℝ :=
  roundTo 4 (dihedralRaw (array.getD i 0) (array.getD j 0)
    (array.getD k 0) (array.getD m 0))

/-- The configuration of the conversion driver after command-line
parsing: the post-shift atom indexes (source variables bd_atm1 ... are
int(sys.argv[..]) + 1, defaulting to 0 when the flag is absent) and the
optional -n override for the number of converted conformers. Flag
parsing itself is external plumbing per the spec and is not modelled. -/
structure ConvCfg where
  bd_atm1 : ℕ
  bd_atm2 : ℕ
  angle_atm1 : ℕ
  angle_atm2 : ℕ
  angle_atm3 : ℕ
  dihedral_atm1 : ℕ
  dihedral_atm2 : ℕ
  dihedral_atm3 : ℕ
  dihedral_atm4 : ℕ
  trsdOpt : Option ℤ

/-- The measurement series the driver accumulates and writes; they exist
only when the run succeeds, so an error result models a run that touched
no file. The generated Gaussian input text bodies are external
conversion plumbing per the spec and are not modelled. -/
structure ConvOut where
  bdSeries : List ℝ
  angleSeries : List ℝ
  dihedralSeries : List ℝ

/-- Failures of the conversion driver, in the order the source can raise
them: data[0] on an empty file (IndexError), int() on a bad count line
(ValueError), division by num_atom + 2 = 0 (ZeroDivisionError), and the
guarded sys.exit when the output folder already exists. -/
inductive ConvErr where
  | emptyFile
  | badCount
  | divZero
  | folderExists
deriving DecidableEq

/-- The per-conformer bond length series accumulated in bd_length_asb
(lines 180-189): entry i is calc_length at the two configured atom
indexes shifted into frame i by i * (num_atom + 2) lines. -/
noncomputable def bdSeriesOf (vecs : List Vec3) (step a1 a2 count : ℕ) : List ℝ :=
  (List.range count).map (fun i => calc_length vecs (a1 + i * step) (a2 + i * step))

/-- The per-conformer bond angle series accumulated in angle_asb
(lines 191-199). -/
noncomputable def angleSeriesOf (vecs : List Vec3) (step a1 a2 a3 count : ℕ) : List ℝ :=
  (List.range count).map
    (fun i => calc_angle vecs (a1 + i * step) (a2 + i * step) (a3 + i * step))

/-- The per-conformer dihedral series accumulated in dihedral_asb
(lines 201-209). -/
noncomputable def dihedralSeriesOf (vecs : List Vec3) (step a1 a2 a3 a4 count : ℕ) :
    List ℝ :=
  (List.range count).map
    (fun i => calc_dihedral vecs (a1 + i * step) (a2 + i * step)
      (a3 + i * step) (a4 + i * step))

/-- Model of main in xyz2com_crest_pc.py (lines 82-245), at the level the
claims need. In source order: data[0] is read and its strip parsed by
int() (line 87, ValueError on a malformed count line), num_conf is
int(len(data) / (num_atom + 2)) (line 89, ZeroDivisionError when
num_atom = -2), the -n override replaces the conformer threshold, and
only then is the output folder tested (lines 173-178): when it already
exists the source prints the conflict and calls sys.exit() before any
write; every write happens after that guard, so output exists only in
the ok branch. A measurement series is active only when all of its
(post-shift) atom indexes are at least 2, exactly the source guards. -/
noncomputable def convProgram (cfg : ConvCfg) (folderExists : Bool)
    (data : List FileLine) : Except ConvErr ConvOut :=
  match data with
  | [] => Except.error ConvErr.emptyFile
  | l0 :: _ =>
    match pyInt l0.raw with
    | none => Except.error ConvErr.badCount
    | some num_atom =>
      if num_atom + 2 = 0 then Except.error ConvErr.divZero
      else
        let num_conf : ℤ := Int.tdiv (data.length : ℤ) (num_atom + 2)
        let trsd : ℤ :=
          match cfg.trsdOpt with
          | some t => t
          | none => num_conf
        if folderExists then Except.error ConvErr.folderExists
        else
          let vecs := data.map (fun l => l.vec)
          let step : ℕ := (num_atom + 2).toNat
          let count : ℕ := trsd.toNat
          Except.ok
            { bdSeries :=
                if 2 ≤ cfg.bd_atm1 ∧ 2 ≤ cfg.bd_atm2 then
                  bdSeriesOf vecs step cfg.bd_atm1 cfg.bd_atm2 count
                else []
              angleSeries :=
                if 2 ≤ cfg.angle_atm1 ∧ 2 ≤ cfg.angle_atm2 ∧ 2 ≤ cfg.angle_atm3 then
                  angleSeriesOf vecs step cfg.angle_atm1 cfg.angle_atm2
                    cfg.angle_atm3 count
                else []
              dihedralSeries :=
                if 2 ≤ cfg.dihedral_atm1 ∧ 2 ≤ cfg.dihedral_atm2 ∧
                    2 ≤ cfg.dihedral_atm3 ∧ 2 ≤ cfg.dihedral_atm4 then
                  dihedralSeriesOf vecs step cfg.dihedral_atm1 cfg.dihedral_atm2
                    cfg.dihedral_atm3 cfg.dihedral_atm4 count
                else [] }

/-
  Helper lemmas.
-/

@[simp] lemma Vec3_mk_x (a b c : ℝ) : (Vec3.mk a b c).x = a := rfl

@[simp] lemma Vec3_mk_y (a b c : ℝ) : (Vec3.mk a b c).y = b := rfl

@[simp] lemma Vec3_mk_z (a b c : ℝ) : (Vec3.mk a b c).z = c := rfl

@[simp] lemma Vec3_sub_def (u v : Vec3) :
    u - v = ⟨u.x - v.x, u.y - v.y, u.z - v.z⟩ := rfl

@[simp] lemma Vec3_zero_x : (0 : Vec3).x = 0 := rfl

@[simp] lemma Vec3_zero_y : (0 : Vec3).y = 0 := rfl

@[simp] lemma Vec3_zero_z : (0 : Vec3).z = 0 := rfl

@[simp] lemma Vec3_zero_def : (0 : Vec3) = ⟨0, 0, 0⟩ := rfl

lemma Vec3_sub_self (v : Vec3) : v - v = 0 := by
  show Vec3.mk (v.x - v.x) (v.y - v.y) (v.z - v.z) = (0 : Vec3)
  simp

lemma dot3_comm (u v : Vec3) : dot3 u v = dot3 v u := by
  unfold dot3
  ring

lemma roundTo_eq_self (k : ℕ) (v : ℝ) (m : ℤ) (h : v * 10 ^ k = (m : ℝ)) :
    roundTo k v = v := by
  unfold roundTo
  rw [h, round_intCast]
  have hk : (10 : ℝ) ^ k ≠ 0 := by positivity
  rw [div_eq_iff hk]
  exact h.symm

lemma sqnorm_zero_vec : sqnorm (0 : Vec3) = 0 := by
  unfold sqnorm
  simp

lemma headI_map_adjust (cs : List (List Vec3)) :
    (cs.map adjust_relative_to_first_atom).headI =
      adjust_relative_to_first_atom cs.headI := by
  cases cs <;> rfl

lemma calculate_rmsd_self (f : List Vec3) : calculate_rmsd f f = some 0 := by
  unfold calculate_rmsd
  rw [if_pos rfl]
  have hz : (List.zipWith (fun a b => sqnorm (a - b)) f f).sum = 0 := by
    rw [List.zipWith_same]
    apply List.sum_eq_zero
    intro x hx
    simp only [List.mem_map] at hx
    obtain ⟨a, _, rfl⟩ := hx
    rw [Vec3_sub_self, sqnorm_zero_vec]
  rw [hz, zero_div, Real.sqrt_zero]

/-
  Claim theorems.
-/

/-- C9: the recenter operation translates every position by subtracting
the position of atom index 0, so the recentered frame has its first atom
exactly at the origin and its entry i equal to frame[i] - frame[0]. -/
theorem recenter_subtracts_first_atom :
    ∀ coords : List Vec3, coords ≠ [] →
      (adjust_relative_to_first_atom coords).headI = (0 : Vec3) ∧
      ∀ i, i < coords.length →
        (adjust_relative_to_first_atom coords).getD i 0 =
          coords.getD i 0 - coords.getD 0 0 := by
  intro coords h
  match coords, h with
  | c0 :: rest, _ =>
    constructor
    · show ((c0 :: rest).map (fun c => c - (c0 :: rest).headI)).headI = 0
      simp [Vec3_sub_self, List.headI]
    · intro i hi
      unfold adjust_relative_to_first_atom
      have hlen : i < ((c0 :: rest).map (fun c => c - (c0 :: rest).headI)).length := by
        simpa using hi
      rw [List.getD_eq_getElem _ _ hlen, List.getD_eq_getElem _ _ hi, List.getElem_map]
      simp [List.headI]

/-- Witness for C9 at a concrete two-atom frame. -/
theorem recenter_subtracts_first_atom_witness :
    ([⟨1, 2, 3⟩, ⟨4, 6, 9⟩] : List Vec3) ≠ [] ∧
    (adjust_relative_to_first_atom [⟨1, 2, 3⟩, ⟨4, 6, 9⟩]).headI = (0 : Vec3) ∧
    (adjust_relative_to_first_atom [⟨1, 2, 3⟩, ⟨4, 6, 9⟩]).getD 1 0 =
      ([⟨1, 2, 3⟩, ⟨4, 6, 9⟩] : List Vec3).getD 1 0 -
        ([⟨1, 2, 3⟩, ⟨4, 6, 9⟩] : List Vec3).getD 0 0 := by
  have h : ([⟨1, 2, 3⟩, ⟨4, 6, 9⟩] : List Vec3) ≠ [] := by simp
  exact ⟨h, (recenter_subtracts_first_atom _ h).1,
    (recenter_subtracts_first_atom _ h).2 1 (by norm_num)⟩

/-- C1: the RMSD pipeline recenters every frame first and then compares
each recentered frame, in ensemble order, against the recentered first
frame; the RMSD of a frame against an identical frame is exactly 0, and
in particular entry 0 of the pipeline result is exactly 0. -/
theorem rmsd_pipeline_recenter_then_compare :
    (∀ cs : List (List Vec3),
        rmsd_values cs = cs.map (fun c =>
          calculate_rmsd (adjust_relative_to_first_atom cs.headI)
            (adjust_relative_to_first_atom c))) ∧
    (∀ f : List Vec3, calculate_rmsd f f = some 0) ∧
    (∀ cs : List (List Vec3), cs ≠ [] → (rmsd_values cs).headI = some 0) := by
  have hmap : ∀ cs : List (List Vec3),
      rmsd_values cs = cs.map (fun c =>
        calculate_rmsd (adjust_relative_to_first_atom cs.headI)
          (adjust_relative_to_first_atom c)) := by
    intro cs
    unfold rmsd_values
    dsimp only
    rw [headI_map_adjust, List.map_map]
    rfl
  refine ⟨hmap, calculate_rmsd_self, ?_⟩
  intro cs h
  match cs, h with
  | c :: rest, _ =>
    rw [hmap]
    show calculate_rmsd (adjust_relative_to_first_atom c)
      (adjust_relative_to_first_atom c) = some 0
    exact calculate_rmsd_self _

/-- Witness for C1 at a concrete one-frame ensemble. -/
theorem rmsd_pipeline_recenter_then_compare_witness :
    ([[⟨1, 2, 3⟩]] : List (List Vec3)) ≠ [] ∧
    (rmsd_values [[⟨1, 2, 3⟩]]).headI = some 0 := by
  have h : ([[⟨1, 2, 3⟩]] : List (List Vec3)) ≠ [] := by simp
  exact ⟨h, rmsd_pipeline_recenter_then_compare.2.2 _ h⟩

/-- C5 counterexample: two frames of differing atom counts (1 and 2) on
which calculate_rmsd does not fail: numpy broadcasts the single row, so
the claim that every length mismatch fails fast is false at this input. -/
theorem calculate_rmsd_broadcast_counterexample :
    ([⟨0, 0, 0⟩] : List Vec3).length ≠
        ([⟨0, 0, 0⟩, ⟨1, 0, 0⟩] : List Vec3).length ∧
    calculate_rmsd [⟨0, 0, 0⟩] [⟨0, 0, 0⟩, ⟨1, 0, 0⟩] ≠ none := by
  constructor
  · simp
  · unfold calculate_rmsd
    simp

/-- C5 as amended: calculate_rmsd fails fast on every atom-count mismatch
in which neither frame has exactly one atom (numpy broadcasting silently
accepts the one-atom case), and it never fails on equal-length frames; in
particular it never truncates to the shorter frame. -/
theorem calculate_rmsd_mismatch_guard :
    (∀ c1 c2 : List Vec3, c1.length ≠ c2.length → c1.length ≠ 1 →
      c2.length ≠ 1 → calculate_rmsd c1 c2 = none) ∧
    (∀ c1 c2 : List Vec3, c1.length = c2.length → calculate_rmsd c1 c2 ≠ none) := by
  constructor
  · intro c1 c2 h h1 h2
    unfold calculate_rmsd
    rw [if_neg h, if_neg h1, if_neg h2]
  · intro c1 c2 h
    unfold calculate_rmsd
    rw [if_pos h]
    simp

/-- Witness for C5 as amended, at frames of 2 and 3 atoms. -/
theorem calculate_rmsd_mismatch_guard_witness :
    ([⟨0, 0, 0⟩, ⟨0, 0, 0⟩] : List Vec3).length ≠
        ([⟨0, 0, 0⟩, ⟨0, 0, 0⟩, ⟨0, 0, 0⟩] : List Vec3).length ∧
    ([⟨0, 0, 0⟩, ⟨0, 0, 0⟩] : List Vec3).length ≠ 1 ∧
    ([⟨0, 0, 0⟩, ⟨0, 0, 0⟩, ⟨0, 0, 0⟩] : List Vec3).length ≠ 1 ∧
    calculate_rmsd [⟨0, 0, 0⟩, ⟨0, 0, 0⟩] [⟨0, 0, 0⟩, ⟨0, 0, 0⟩, ⟨0, 0, 0⟩] = none := by
  have h : ([⟨0, 0, 0⟩, ⟨0, 0, 0⟩] : List Vec3).length ≠
      ([⟨0, 0, 0⟩, ⟨0, 0, 0⟩, ⟨0, 0, 0⟩] : List Vec3).length := by simp
  have h1 : ([⟨0, 0, 0⟩, ⟨0, 0, 0⟩] : List Vec3).length ≠ 1 := by simp
  have h2 : ([⟨0, 0, 0⟩, ⟨0, 0, 0⟩, ⟨0, 0, 0⟩] : List Vec3).length ≠ 1 := by simp
  exact ⟨h, h1, h2, calculate_rmsd_mismatch_guard.1 _ _ h h1 h2⟩

lemma classify_low {x : ℝ} (h : x < 0.5) : classify x = Band.smallerThanHalf := by
  unfold classify
  rw [if_pos h]

lemma classify_mid1 {x : ℝ} (h1 : 0.5 ≤ x) (h2 : x < 1.0) :
    classify x = Band.halfToOne := by
  unfold classify
  rw [if_neg (by linarith), if_pos ⟨h1, h2⟩]

lemma classify_mid2 {x : ℝ} (h1 : 1.0 ≤ x) (h2 : x < 2.0) :
    classify x = Band.oneToTwo := by
  unfold classify
  rw [if_neg (by linarith), if_neg ?ha, if_pos ⟨h1, h2⟩]
  case ha =>
    rintro ⟨-, hb⟩
    linarith

lemma classify_high {x : ℝ} (h : 2.0 ≤ x) : classify x = Band.aboveTwo := by
  unfold classify
  rw [if_neg (by linarith), if_neg ?ha, if_neg ?hb]
  case ha =>
    rintro ⟨-, hc⟩
    linarith
  case hb =>
    rintro ⟨-, hc⟩
    linarith

lemma classify_eq_iff (x : ℝ) (hx : 0 ≤ x) (b : Band) :
    classify x = b ↔ specBand b x := by
  rcases lt_or_le x 0.5 with h1 | h1
  · rw [classify_low h1]
    cases b <;> simp [specBand] <;> first
      | (constructor <;> linarith)
      | (intro hc; linarith)
      | linarith
  · rcases lt_or_le x 1.0 with h2 | h2
    · rw [classify_mid1 h1 h2]
      cases b <;> simp [specBand] <;> first
        | (constructor <;> linarith)
        | (intro hc; linarith)
        | linarith
    · rcases lt_or_le x 2.0 with h3 | h3
      · rw [classify_mid2 h2 h3]
        cases b <;> simp [specBand] <;> first
          | (constructor <;> linarith)
          | (intro hc; linarith)
          | linarith
      · rw [classify_high h3]
        cases b <;> simp [specBand] <;> first
          | linarith
          | (intro hc; linarith)

/-- C2: on every non-negative value the classifier agrees with the four
half-open bands of the spec, which partition the non-negative reals, so
each value lies in exactly one band; the boundary value 0.5 is assigned
to the 0.5-to-1.0 band and that band is not the smaller-than-0.5 band. -/
theorem classifier_band_partition :
    (∀ x : ℝ, 0 ≤ x →
        (∃! b, specBand b x) ∧ ∀ b, classify x = b ↔ specBand b x) ∧
    classify 0.5 = Band.halfToOne ∧ Band.halfToOne ≠ Band.smallerThanHalf := by
  refine ⟨?_, classify_mid1 le_rfl (by norm_num), by decide⟩
  intro x hx
  refine ⟨⟨classify x, (classify_eq_iff x hx _).mp rfl, ?_⟩, classify_eq_iff x hx⟩
  intro y hy
  exact ((classify_eq_iff x hx y).mpr hy).symm

/-- Witness for C2 at the boundary value 0.5. -/
theorem classifier_band_partition_witness :
    (0 : ℝ) ≤ 0.5 ∧ (∃! b, specBand b (0.5 : ℝ)) ∧
      (classify (0.5 : ℝ) = Band.halfToOne ↔ specBand Band.halfToOne (0.5 : ℝ)) := by
  have hx : (0 : ℝ) ≤ 0.5 := by norm_num
  exact ⟨hx, (classifier_band_partition.1 0.5 hx).1,
    (classifier_band_partition.1 0.5 hx).2 _⟩

/-- C10: the NaN-aware classifier is total, assigning every input
(ordinary, negative, or NaN) exactly one band; any input failing all
three range guards, in particular NaN, lands in the unbounded above-2.0
band rather than being flagged, and a negative value lands in the
smaller-than-0.5 band. -/
theorem classifier_total_nan_above :
    (∀ v : Option ℝ, ∃! b, classifyF v = b) ∧
    (∀ v : Option ℝ, ¬ nanLt v 0.5 → ¬ (nanLe 0.5 v ∧ nanLt v 1.0) →
      ¬ (nanLe 1.0 v ∧ nanLt v 2.0) → classifyF v = Band.aboveTwo) ∧
    classifyF none = Band.aboveTwo ∧
    (∀ x : ℝ, x < 0 → classifyF (some x) = Band.smallerThanHalf) := by
  refine ⟨fun v => ⟨classifyF v, rfl, fun y hy => hy.symm⟩, ?_, ?_, ?_⟩
  · intro v h1 h2 h3
    unfold classifyF
    rw [if_neg h1, if_neg h2, if_neg h3]
  · unfold classifyF
    rw [if_neg (show ¬ nanLt none 0.5 from fun h => h),
      if_neg (show ¬ (nanLe 0.5 none ∧ nanLt none 1.0) from fun h => h.2),
      if_neg (show ¬ (nanLe 1.0 none ∧ nanLt none 2.0) from fun h => h.2)]
  · intro x hx
    unfold classifyF
    rw [if_pos (show nanLt (some x) 0.5 from by unfold nanLt; norm_num; linarith)]

/-- Witness for C10 at NaN and at a concrete negative value. -/
theorem classifier_total_nan_above_witness :
    (¬ nanLt none 0.5) ∧ classifyF none = Band.aboveTwo ∧
    ((-1 : ℝ) < 0) ∧ classifyF (some (-1)) = Band.smallerThanHalf := by
  refine ⟨fun h => h, ?_, by norm_num, ?_⟩
  · exact classifier_total_nan_above.2.1 none (fun h => h) (fun h => h.2)
      (fun h => h.2)
  · exact classifier_total_nan_above.2.2.2 (-1) (by norm_num)

/-- C4: swapping the two endpoint atoms leaves the bond angle unchanged,
for positions where the angle is defined (neither endpoint coincides with
the vertex), even though the source computes the vectors as B - A and
B - C rather than A - B and C - B. -/
theorem calc_angle_endpoint_swap :
    ∀ (array : List Vec3) (i j k : ℕ),
      array.getD i 0 ≠ array.getD j 0 → array.getD k 0 ≠ array.getD j 0 →
      calc_angle array k j i = calc_angle array i j k := by
  intro array i j k _ _
  unfold calc_angle angleRaw
  rw [dot3_comm (array.getD j 0 - array.getD k 0) (array.getD j 0 - array.getD i 0),
    mul_comm (norm3 (array.getD j 0 - array.getD k 0))
      (norm3 (array.getD j 0 - array.getD i 0))]

/-- Witness for C4 at a concrete right-angle configuration. -/
theorem calc_angle_endpoint_swap_witness :
    (([⟨1, 0, 0⟩, ⟨0, 0, 0⟩, ⟨0, 1, 0⟩] : List Vec3).getD 0 0 ≠
        ([⟨1, 0, 0⟩, ⟨0, 0, 0⟩, ⟨0, 1, 0⟩] : List Vec3).getD 1 0) ∧
    (([⟨1, 0, 0⟩, ⟨0, 0, 0⟩, ⟨0, 1, 0⟩] : List Vec3).getD 2 0 ≠
        ([⟨1, 0, 0⟩, ⟨0, 0, 0⟩, ⟨0, 1, 0⟩] : List Vec3).getD 1 0) ∧
    calc_angle [⟨1, 0, 0⟩, ⟨0, 0, 0⟩, ⟨0, 1, 0⟩] 2 1 0 =
      calc_angle [⟨1, 0, 0⟩, ⟨0, 0, 0⟩, ⟨0, 1, 0⟩] 0 1 2 := by
  have h1 : (([⟨1, 0, 0⟩, ⟨0, 0, 0⟩, ⟨0, 1, 0⟩] : List Vec3).getD 0 0 ≠
      ([⟨1, 0, 0⟩, ⟨0, 0, 0⟩, ⟨0, 1, 0⟩] : List Vec3).getD 1 0) := by
    simp [List.getD]
  have h2 : (([⟨1, 0, 0⟩, ⟨0, 0, 0⟩, ⟨0, 1, 0⟩] : List Vec3).getD 2 0 ≠
      ([⟨1, 0, 0⟩, ⟨0, 0, 0⟩, ⟨0, 1, 0⟩] : List Vec3).getD 1 0) := by
    simp [List.getD]
  exact ⟨h1, h2, calc_angle_endpoint_swap _ 0 1 2 h1 h2⟩

lemma dihedralRaw_rev (a b c d : Vec3) : dihedralRaw d c b a = dihedralRaw a b c d := by
  unfold dihedralRaw
  have e1 : sqnorm (cross (c - d) (b - c)) = sqnorm (cross (c - b) (d - c)) := by
    simp only [cross, sqnorm, Vec3_sub_def, Vec3_mk_x, Vec3_mk_y, Vec3_mk_z]
    ring
  have e2 : sqnorm (cross (b - c) (a - b)) = sqnorm (cross (b - a) (c - b)) := by
    simp only [cross, sqnorm, Vec3_sub_def, Vec3_mk_x, Vec3_mk_y, Vec3_mk_z]
    ring
  have e3 : dot3 (cross (c - d) (b - c)) (cross (b - c) (a - b)) =
      dot3 (cross (b - a) (c - b)) (cross (c - b) (d - c)) := by
    simp only [cross, dot3, Vec3_sub_def, Vec3_mk_x, Vec3_mk_y, Vec3_mk_z]
    ring
  have e4 : dot3 (cross (cross (c - d) (b - c)) (cross (b - c) (a - b))) (b - c) =
      dot3 (cross (cross (b - a) (c - b)) (cross (c - b) (d - c))) (c - b) := by
    simp only [cross, dot3, Vec3_sub_def, Vec3_mk_x, Vec3_mk_y, Vec3_mk_z]
    ring
  simp only [norm3]
  rw [e3, e4, e1, e2,
    mul_comm (Real.sqrt (sqnorm (cross (c - b) (d - c))))
      (Real.sqrt (sqnorm (cross (b - a) (c - b))))]

/-- C3 counterexample: a concrete non-planar four-atom configuration on
which the dihedral is defined and evaluates to 90 degrees in both atom
orders, so the claimed sign reversal under full reversal is false here. -/
theorem calc_dihedral_reversal_counterexample :
    calc_dihedral [⟨0, 0, 0⟩, ⟨1, 0, 0⟩, ⟨1, 1, 0⟩, ⟨1, 1, 1⟩] 3 2 1 0 ≠
      - calc_dihedral [⟨0, 0, 0⟩, ⟨1, 0, 0⟩, ⟨1, 1, 0⟩, ⟨1, 1, 1⟩] 0 1 2 3 := by
  have hpi : Real.pi ≠ 0 := Real.pi_ne_zero
  have hdeg : Real.pi / 2 * 180 / Real.pi = 90 := by
    field_simp
    ring
  have h90 : roundTo 4 (90 : ℝ) = 90 := roundTo_eq_self 4 90 900000 (by norm_num)
  have h1 : calc_dihedral [⟨0, 0, 0⟩, ⟨1, 0, 0⟩, ⟨1, 1, 0⟩, ⟨1, 1, 1⟩] 0 1 2 3 = 90 := by
    unfold calc_dihedral dihedralRaw
    norm_num [List.getD, cross, dot3, norm3, sqnorm, Real.sqrt_one, Real.arccos_zero]
    rw [hdeg]
    exact h90
  have h2 : calc_dihedral [⟨0, 0, 0⟩, ⟨1, 0, 0⟩, ⟨1, 1, 0⟩, ⟨1, 1, 1⟩] 3 2 1 0 = 90 := by
    unfold calc_dihedral dihedralRaw
    norm_num [List.getD, cross, dot3, norm3, sqnorm, Real.sqrt_one, Real.arccos_zero]
    rw [hdeg]
    exact h90
  rw [h1, h2]
  norm_num

/-- C3 as amended: reversing the atom order preserves, rather than
negates, the signed dihedral: under the source convention both the
arccos magnitude and the triple-product sign are invariant under full
reversal, so dihedral(d, c, b, a) = dihedral(a, b, c, d) for all
positions. -/
theorem calc_dihedral_reversal :
    ∀ (array : List Vec3) (i j k m : ℕ),
      calc_dihedral array m k j i = calc_dihedral array i j k m := by
  intro array i j k m
  unfold calc_dihedral
  congr 1
  generalize array.getD i 0 = a
  generalize array.getD j 0 = b
  generalize array.getD k 0 = c
  generalize array.getD m 0 = d
  exact dihedralRaw_rev a b c d

/-- C6 counterexample: at two concrete positions a distance sqrt 2 apart,
calc_length returns a rational multiple of 1 / 10000 and therefore not
the full-precision distance, so the claim that the returned and
accumulated values are unrounded is false at this input. -/
theorem calc_length_returns_rounded_counterexample :
    calc_length [⟨0, 0, 0⟩, ⟨1, 1, 0⟩] 0 1 ≠ distRaw ⟨0, 0, 0⟩ ⟨1, 1, 0⟩ := by
  intro h
  have hd : distRaw (⟨0, 0, 0⟩ : Vec3) ⟨1, 1, 0⟩ = Real.sqrt 2 := by
    unfold distRaw
    norm_num [sqnorm]
  have hc : calc_length [⟨0, 0, 0⟩, ⟨1, 1, 0⟩] 0 1 = roundTo 4 (Real.sqrt 2) := by
    unfold calc_length
    rw [show ([⟨0, 0, 0⟩, ⟨1, 1, 0⟩] : List Vec3).getD 0 0 = ⟨0, 0, 0⟩ from rfl,
      show ([⟨0, 0, 0⟩, ⟨1, 1, 0⟩] : List Vec3).getD 1 0 = ⟨1, 1, 0⟩ from rfl, hd]
  rw [hc, hd] at h
  unfold roundTo at h
  refine irrational_sqrt_two ⟨((round (Real.sqrt 2 * 10 ^ 4) : ℤ) : ℚ) / 10 ^ 4, ?_⟩
  push_cast
  exact h

/-- C6 as amended: the geometric results are rounded to 4 decimal places
inside the calc functions themselves, so the values they return, and
hence the per-conformer series the driver accumulates and reports, are
the rounded values; only the computation before that final rounding step
(the raw local values distRaw, angleRaw, dihedralRaw) uses full
precision. -/
theorem geometry_rounded_at_return :
    (∀ (array : List Vec3) (i j : ℕ),
        calc_length array i j =
          roundTo 4 (distRaw (array.getD i 0) (array.getD j 0))) ∧
    (∀ (array : List Vec3) (i j k : ℕ),
        calc_angle array i j k =
          roundTo 4 (angleRaw (array.getD i 0) (array.getD j 0) (array.getD k 0))) ∧
    (∀ (array : List Vec3) (i j k m : ℕ),
        calc_dihedral array i j k m =
          roundTo 4 (dihedralRaw (array.getD i 0) (array.getD j 0)
            (array.getD k 0) (array.getD m 0))) ∧
    (∀ (vecs : List Vec3) (step a1 a2 count i : ℕ), i < count →
        (bdSeriesOf vecs step a1 a2 count).getD i 0 =
          calc_length vecs (a1 + i * step) (a2 + i * step)) ∧
    (∀ (vecs : List Vec3) (step a1 a2 a3 count i : ℕ), i < count →
        (angleSeriesOf vecs step a1 a2 a3 count).getD i 0 =
          calc_angle vecs (a1 + i * step) (a2 + i * step) (a3 + i * step)) ∧
    (∀ (vecs : List Vec3) (step a1 a2 a3 a4 count i : ℕ), i < count →
        (dihedralSeriesOf vecs step a1 a2 a3 a4 count).getD i 0 =
          calc_dihedral vecs (a1 + i * step) (a2 + i * step) (a3 + i * step)
            (a4 + i * step)) := by
  refine ⟨fun _ _ _ => rfl, fun _ _ _ _ => rfl, fun _ _ _ _ _ => rfl, ?_, ?_, ?_⟩
  · intro vecs step a1 a2 count i hi
    unfold bdSeriesOf
    have hlen : i < ((List.range count).map
        (fun i => calc_length vecs (a1 + i * step) (a2 + i * step))).length := by
      simpa using hi
    rw [List.getD_eq_getElem _ _ hlen, List.getElem_map]
    simp
  · intro vecs step a1 a2 a3 count i hi
    unfold angleSeriesOf
    have hlen : i < ((List.range count).map
        (fun i => calc_angle vecs (a1 + i * step) (a2 + i * step)
          (a3 + i * step))).length := by
      simpa using hi
    rw [List.getD_eq_getElem _ _ hlen, List.getElem_map]
    simp
  · intro vecs step a1 a2 a3 a4 count i hi
    unfold dihedralSeriesOf
    have hlen : i < ((List.range count).map
        (fun i => calc_dihedral vecs (a1 + i * step) (a2 + i * step)
          (a3 + i * step) (a4 + i * step))).length := by
      simpa using hi
    rw [List.getD_eq_getElem _ _ hlen, List.getElem_map]
    simp

/-- Witness for C6 as amended at a concrete series entry. -/
theorem geometry_rounded_at_return_witness :
    0 < 1 ∧
    (bdSeriesOf [⟨0, 0, 0⟩, ⟨1, 1, 0⟩] 5 2 3 1).getD 0 0 =
      calc_length [⟨0, 0, 0⟩, ⟨1, 1, 0⟩] (2 + 0 * 5) (3 + 0 * 5) :=
  ⟨by norm_num,
    geometry_rounded_at_return.2.2.2.1 [⟨0, 0, 0⟩, ⟨1, 1, 0⟩] 5 2 3 1 0 (by norm_num)⟩

/-- C7: when the declared atom-count line does not parse as an integer,
both programs fail at that parse: the rmsd script errors inside read_xyz
before any report is assembled, and the conversion driver errors before
the folder guard and the write loop; in both models output exists only
in the ok branch, so an error result is a run that created no file or
folder. -/
theorem malformed_count_fails_before_output :
    (∀ (pc : String → Option Vec3) (s : String) (rest : List String),
        pyInt s = none →
          rmsd_main pc (s :: rest) = Except.error RmsdErr.badCount) ∧
    (∀ (cfg : ConvCfg) (fe : Bool) (l : FileLine) (rest : List FileLine),
        pyInt l.raw = none →
          convProgram cfg fe (l :: rest) = Except.error ConvErr.badCount) := by
  constructor
  · intro pc s rest h
    have hr : read_xyz pc (s :: rest) = Except.error RmsdErr.badCount := by
      rw [read_xyz]
      rw [h]
    unfold rmsd_main
    rw [hr]
  · intro cfg fe l rest h
    unfold convProgram
    simp [h]

/-- Witness for C7 at the unparseable count line abc. -/
theorem malformed_count_fails_before_output_witness :
    pyInt "abc" = none ∧
    rmsd_main (fun _ => none) ["abc"] = Except.error RmsdErr.badCount ∧
    convProgram ⟨0, 0, 0, 0, 0, 0, 0, 0, 0, none⟩ false [⟨"abc", ⟨0, 0, 0⟩⟩] =
      Except.error ConvErr.badCount := by
  have h : pyInt "abc" = none := by decide
  exact ⟨h, malformed_count_fails_before_output.1 (fun _ => none) "abc" [] h,
    malformed_count_fails_before_output.2 ⟨0, 0, 0, 0, 0, 0, 0, 0, 0, none⟩ false
      ⟨"abc", ⟨0, 0, 0⟩⟩ [] h⟩

/-- C8: when the output folder already exists and the run reaches the
folder guard (the count line parses and num_atom + 2 is nonzero, so the
earlier statements do not raise first), the conversion driver stops with
the folder-exists refusal; output exists only in the ok branch, so the
refusal leaves the file system unmodified. -/
theorem folder_exists_refusal :
    ∀ (cfg : ConvCfg) (l : FileLine) (rest : List FileLine) (n : ℤ),
      pyInt l.raw = some n → n + 2 ≠ 0 →
      convProgram cfg true (l :: rest) = Except.error ConvErr.folderExists := by
  intro cfg l rest n h hn
  unfold convProgram
  simp [h, hn]

/-- Witness for C8 at a concrete file whose count line is 4. -/
theorem folder_exists_refusal_witness :
    pyInt "4" = some 4 ∧ (4 : ℤ) + 2 ≠ 0 ∧
    convProgram ⟨0, 0, 0, 0, 0, 0, 0, 0, 0, none⟩ true [⟨"4", ⟨0, 0, 0⟩⟩] =
      Except.error ConvErr.folderExists := by
  have h : pyInt "4" = some 4 := by decide
  exact ⟨h, by decide,
    folder_exists_refusal ⟨0, 0, 0, 0, 0, 0, 0, 0, 0, none⟩ ⟨"4", ⟨0, 0, 0⟩⟩ [] 4 h
      (by decide)⟩
